import Mathlib

/-!
# Verification of the GuardAIn bearing / compass core

Shallow embedding of the computational core of the repository:

* `src/app/_lib/bearing.ts` — the great-circle bearing calculator
  (`toRadians`, `toDegrees`, `bearing`), modelled over the real numbers.
  JavaScript's `Math.atan2 (y, x)` is modelled as the complex argument of
  `x + y·i` (range `(-π, π]`, `atan2 0 0 = 0`), and JavaScript's `%`
  operator (truncated remainder) is modelled by `jsMod`.

* `src/app/_components/compass-popup.tsx` — the orientation sensor
  adapter (`startCompassListener` with its two listeners
  `absoluteListener` and `webkitListener`, the permission gate and the
  cleanup handle) and the direction indicator (`CompassPopup`'s
  `arrowRotation`).  The single-threaded event-driven behaviour is
  modelled as a step function on a listener-attachment state, run over a
  list of incoming events; each step emits the callback invocations it
  performs, tagged with the source that produced them.

All modelled functions are total Lean functions: the originals perform no
input validation, never throw, and have no side effects beyond the
listener attachment state, which is made explicit here.
-/

/-! ## Bearing calculator (src/app/_lib/bearing.ts) -/

noncomputable section

/-- `toRadians` from src/app/_lib/bearing.ts: `(degrees * Math.PI) / 180`. -/
def toRadians (degrees : ℝ) : ℝ := degrees * Real.pi / 180

/-- `toDegrees` from src/app/_lib/bearing.ts: `(radians * 180) / Math.PI`. -/
def toDegrees (radians : ℝ) : ℝ := radians * 180 / Real.pi

/-- JavaScript's `Math.atan2 (y, x)`: the argument of the point `(x, y)`,
in `(-π, π]`, with `atan2 0 0 = 0`.  Modelled as `Complex.arg (x + y·i)`. -/
def atan2 (y x : ℝ) : ℝ := Complex.arg ⟨x, y⟩

/-- JavaScript truncation towards zero (the `trunc` underlying `%`). -/
def jsTrunc (x : ℝ) : ℤ := if 0 ≤ x then ⌊x⌋ else ⌈x⌉

/-- JavaScript's `%` on numbers: the truncated remainder
`a - b * trunc (a / b)` (sign follows the dividend). -/
def jsMod (a b : ℝ) : ℝ := a - b * (jsTrunc (a / b) : ℝ)

/-- `bearing` from src/app/_lib/bearing.ts, line for line: convert the four
inputs to radians, compute `y`, `x`, `atan2`, convert to degrees and return
`(brng + 360) % 360`.  No input validation, no side effects. -/
def bearing (startLat startLng destLat destLng : ℝ) : ℝ :=
  let sLat := toRadians startLat
  let sLng := toRadians startLng
  let dLat := toRadians destLat
  let dLng := toRadians destLng
  let y := Real.sin (dLng - sLng) * Real.cos dLat
  let x := Real.cos sLat * Real.sin dLat -
    Real.sin sLat * Real.cos dLat * Real.cos (dLng - sLng)
  let brng := toDegrees (atan2 y x)
  jsMod (brng + 360) 360

/-- The reference value described by the specification's algorithm for the
bearing calculator (spec §4.1): convert all four inputs to radians; compute
`y = sin(Δlon)·cos(targetLat)`,
`x = cos(observerLat)·sin(targetLat) − sin(observerLat)·cos(targetLat)·cos(Δlon)`,
`θ = atan2(y, x)`; convert `θ` to degrees and normalize into `[0, 360)` via
`(θ + 360) mod 360`. -/
def bearingRef (observerLat observerLon targetLat targetLon : ℝ) : ℝ :=
  let dLon := toRadians targetLon - toRadians observerLon
  let y := Real.sin dLon * Real.cos (toRadians targetLat)
  let x := Real.cos (toRadians observerLat) * Real.sin (toRadians targetLat) -
    Real.sin (toRadians observerLat) * Real.cos (toRadians targetLat) * Real.cos dLon
  let θ := toDegrees (atan2 y x)
  jsMod (θ + 360) 360

end

/-! ## Orientation sensor adapter (src/app/_components/compass-popup.tsx)

`startCompassListener` attaches two listeners: `absoluteListener` on the
`deviceorientationabsolute` event and `webkitListener` on the
`deviceorientation` event.  On a platform with a permission gate
(`DeviceOrientationEvent.requestPermission` is a function) the listeners
are attached only after the promise resolves with `"granted"`; otherwise
they are attached immediately.  The function returns `null` when the
`DeviceOrientationEvent` API is absent and otherwise a cleanup closure
that removes both listeners.

The environment is single-threaded and event-driven, so a session is a
state (which listeners are currently attached) stepped over a list of
events; every callback invocation a step performs is emitted, tagged with
the source listener that produced it. -/

/-- A JavaScript number as it can reach `webkitCompassHeading`: `NaN`,
`±Infinity`, or an (exact) finite value, modelled by a real. -/
inductive JsVal where
  | nan
  | posInf
  | negInf
  | num (x : ℝ)

/-- JavaScript's `isNaN` on a `JsVal`. -/
def JsVal.isNaN : JsVal → Bool
  | .nan => true
  | _ => false

/-- A `deviceorientationabsolute` event: the `absolute` flag and the three
Euler angles, each possibly `null`. -/
structure AbsoluteEvent where
  absolute : Bool
  alpha : Option ℝ
  beta : Option ℝ
  gamma : Option ℝ

/-- A `deviceorientation` event as seen by `webkitListener`:
`webkitCompassHeading` is `null`/`undefined` (`none`) or a number. -/
structure WebkitEvent where
  webkitCompassHeading : Option JsVal

/-- Which listener produced a callback invocation. -/
inductive Source where
  | absolute
  | webkit
deriving DecidableEq

/-- The listener-attachment state of one compass session. -/
structure SessionState where
  absAttached : Bool
  webAttached : Bool
deriving DecidableEq

/-- The events a session can observe: the two DOM event streams, the
resolution of the one-shot permission promise (carrying the response
string compared against `"granted"` in the code), and an invocation of
the cleanup handle. -/
inductive SensorEvent where
  | absoluteOrientation (e : AbsoluteEvent)
  | deviceOrientation (e : WebkitEvent)
  | permissionResult (response : String)
  | cleanup

/-- The heading `absoluteListener` computes from a valid sample:
`compass = -(alpha + beta * gamma / 90)` followed by
`compass -= Math.floor(compass / 360) * 360` (wrap into `[0, 360)`). -/
noncomputable def absoluteHeading (alpha beta gamma : ℝ) : ℝ :=
  let compass := -(alpha + beta * gamma / 90)
  compass - (⌊compass / 360⌋ : ℝ) * 360

/-- The body of `absoluteListener`: events lacking the `absolute` flag or
with a `null` component are dropped (`none`); a valid event yields the
normalized heading. -/
noncomputable def absoluteSample (e : AbsoluteEvent) : Option ℝ :=
  match e.absolute, e.alpha, e.beta, e.gamma with
  | true, some a, some b, some g => some (absoluteHeading a b g)
  | _, _, _, _ => none

/-- One step of the session: dispatch an event to the listeners currently
attached, mirroring the listener bodies in `startCompassListener`.
Returns the next state and the list of callback invocations performed
(each tagged with its source).

* `absoluteListener`: on a valid sample it removes `webkitListener` and
  invokes the callback with the normalized heading;
* `webkitListener`: if `webkitCompassHeading != null && !isNaN(...)` it
  invokes the callback with the raw value and removes `absoluteListener`;
* the permission promise resolution attaches both listeners iff the
  response equals `"granted"` (`addListeners`), and only warns otherwise;
* the cleanup handle removes both listeners (removing an unattached
  listener is a no-op and never throws). -/
noncomputable def step (s : SessionState) : SensorEvent → SessionState × List (Source × JsVal)
  | .absoluteOrientation e =>
    if s.absAttached then
      match absoluteSample e with
      | some h => ({ s with webAttached := false }, [(Source.absolute, JsVal.num h)])
      | none => (s, [])
    else (s, [])
  | .deviceOrientation e =>
    if s.webAttached then
      match e.webkitCompassHeading with
      | some v =>
        if v.isNaN then (s, [])
        else ({ s with absAttached := false }, [(Source.webkit, v)])
      | none => (s, [])
    else (s, [])
  | .permissionResult response =>
    (if response = "granted" then { absAttached := true, webAttached := true } else s, [])
  | .cleanup => ({ absAttached := false, webAttached := false }, [])

/-- Run a session from a state over a list of events, collecting every
callback invocation in order. -/
noncomputable def run (s : SessionState) : List SensorEvent → SessionState × List (Source × JsVal)
  | [] => (s, [])
  | ev :: evs =>
    let out := step s ev
    let rest := run out.1 evs
    (rest.1, out.2 ++ rest.2)

/-- The state right after `startCompassListener` returns: on a platform
with a permission gate no listener is attached yet (they attach only when
the promise resolves with `"granted"`); otherwise `addListeners` has run
and both are attached. -/
def initState (needsPermission : Bool) : SessionState :=
  if needsPermission then ⟨false, false⟩ else ⟨true, true⟩

/-- The cleanup closure returned by `startCompassListener`: it removes both
listeners, whatever is currently attached. -/
def cleanupFn : SessionState → SessionState := fun _ => ⟨false, false⟩

/-- `startCompassListener`'s return value: `null` (`none`) exactly when the
`DeviceOrientationEvent` API is absent, and the cleanup closure otherwise
— also when the permission request is still pending or later denied. -/
def startCompassListener (apiAvailable : Bool) : Option (SessionState → SessionState) :=
  if apiAvailable then some cleanupFn else none

/-- An event is the resolution of the permission promise. -/
def isPermissionEvent : SensorEvent → Bool
  | .permissionResult _ => true
  | _ => false

/-- Number of permission-promise resolutions in a trace. -/
def permCount (evs : List SensorEvent) : ℕ := evs.countP isPermissionEvent

/-- A trace is well formed for a platform when the one-shot permission
promise resolves at most once, and only on a platform that has the
permission gate. -/
def wfTrace (needsPermission : Bool) (evs : List SensorEvent) : Prop :=
  permCount evs ≤ if needsPermission then 1 else 0

/-- No event in the trace is a granted permission resolution. -/
def noGrant (evs : List SensorEvent) : Prop :=
  SensorEvent.permissionResult "granted" ∉ evs

/-! ## Direction indicator (`CompassPopup`) -/

/-- The arrow rotation computed by `CompassPopup`:
`deviceHeading !== null ? stationBearing - deviceHeading : stationBearing`. -/
def arrowRotation (stationBearing : ℝ) (deviceHeading : Option ℝ) : ℝ :=
  match deviceHeading with
  | some h => stationBearing - h
  | none => stationBearing

/-- The UI state of `CompassPopup` after its mount effect and a trace of
sensor events: `isSupported` (set to `false` exactly when the
`DeviceOrientationEvent` API is absent, i.e. when `startCompassListener`
returned `null`) and `deviceHeading` (the last value delivered to the
callback, `null` until a first sample arrives). -/
noncomputable def popupState (apiAvailable needsPermission : Bool)
    (evs : List SensorEvent) : Bool × Option JsVal :=
  if apiAvailable then
    (true, ((run (initState needsPermission) evs).2.map Prod.snd).getLast?)
  else
    (false, none)

/-! ## Helper lemmas about `jsMod` and floor normalization -/

/-- For a nonnegative dividend and positive divisor, the JavaScript remainder
agrees with floor-based reduction and lands in `[0, b)`. -/
theorem jsMod_mem_Ico (a b : ℝ) (ha : 0 ≤ a) (hb : 0 < b) :
    jsMod a b ∈ Set.Ico 0 b := by
  have hdiv : 0 ≤ a / b := div_nonneg ha hb.le
  have hmod : jsMod a b = b * Int.fract (a / b) := by
    unfold jsMod jsTrunc Int.fract
    rw [if_pos hdiv]
    field_simp
  constructor
  · rw [hmod]
    exact mul_nonneg hb.le (Int.fract_nonneg _)
  · rw [hmod]
    calc b * Int.fract (a / b) < b * 1 :=
          (mul_lt_mul_left hb).mpr (Int.fract_lt_one _)
    _ = b := mul_one b

/-- Floor-based wrap-into-`[0, b)`: for any real `x` and positive `b`,
`x - ⌊x / b⌋ * b` lies in `[0, b)`. -/
theorem sub_floor_mul_mem_Ico (x b : ℝ) (hb : 0 < b) :
    x - (⌊x / b⌋ : ℝ) * b ∈ Set.Ico 0 b := by
  have h : x - (⌊x / b⌋ : ℝ) * b = b * Int.fract (x / b) := by
    unfold Int.fract
    field_simp
    ring
  constructor
  · rw [h]; exact mul_nonneg hb.le (Int.fract_nonneg _)
  · rw [h]
    calc b * Int.fract (x / b) < b * 1 :=
          (mul_lt_mul_left hb).mpr (Int.fract_lt_one _)
    _ = b := mul_one b

/-- The degree value of an `atan2` result is at least `-180`. -/
theorem toDegrees_atan2_ge (y x : ℝ) : -180 ≤ toDegrees (atan2 y x) := by
  have harg : -Real.pi < atan2 y x := Complex.neg_pi_lt_arg _
  have hpi : (0 : ℝ) < Real.pi := Real.pi_pos
  unfold toDegrees
  rw [le_div_iff₀ hpi]
  nlinarith [harg, hpi]

/-! ## Claim theorems for the bearing calculator -/

/-- C1: for all four real-valued degree inputs, `bearing` returns exactly the
reference value prescribed by the spec: convert to radians, compute
`y = sin(Δlon)·cos(targetLat)`,
`x = cos(observerLat)·sin(targetLat) − sin(observerLat)·cos(targetLat)·cos(Δlon)`,
`θ = atan2(y, x)`, convert to degrees and normalize into `[0, 360)` via
`(θ + 360) mod 360`.  Both sides are pure total functions: no input
validation, no side effects. -/
theorem bearing_eq_spec_reference (observerLat observerLon targetLat targetLon : ℝ) :
    bearing observerLat observerLon targetLat targetLon =
      bearingRef observerLat observerLon targetLat targetLon := rfl

/-- C2: for all real inputs the value of `bearing` lies in `[0, 360)`; the
function is total (always returns a defined value; `atan2` has no domain
error in this model) and never throws. -/
theorem bearing_mem_Ico (startLat startLng destLat destLng : ℝ) :
    bearing startLat startLng destLat destLng ∈ Set.Ico (0 : ℝ) 360 := by
  unfold bearing
  have hge : -180 ≤ toDegrees (atan2
      (Real.sin (toRadians destLng - toRadians startLng) * Real.cos (toRadians destLat))
      (Real.cos (toRadians startLat) * Real.sin (toRadians destLat) -
        Real.sin (toRadians startLat) * Real.cos (toRadians destLat) *
          Real.cos (toRadians destLng - toRadians startLng))) :=
    toDegrees_atan2_ge _ _
  exact jsMod_mem_Ico _ _ (by linarith) (by norm_num)

/-- C9: in the degenerate same-point case the formula yields `0`:
`y = 0`, `x = 0`, `atan2 0 0 = 0`, and `(0 + 360) % 360 = 0`. -/
theorem bearing_same_point (lat lon : ℝ) : bearing lat lon lat lon = 0 := by
  unfold bearing
  dsimp only
  have hy : Real.sin (toRadians lon - toRadians lon) * Real.cos (toRadians lat) = 0 := by
    simp
  have hx : Real.cos (toRadians lat) * Real.sin (toRadians lat) -
      Real.sin (toRadians lat) * Real.cos (toRadians lat) *
        Real.cos (toRadians lon - toRadians lon) = 0 := by
    simp [mul_comm]
  rw [hy, hx]
  have hz : atan2 0 0 = 0 := by
    have h0 : (⟨0, 0⟩ : ℂ) = 0 := by
      apply Complex.ext <;> simp
    unfold atan2
    rw [h0, Complex.arg_zero]
  rw [hz]
  have hdeg : toDegrees 0 = 0 := by
    unfold toDegrees
    simp
  rw [hdeg]
  unfold jsMod jsTrunc
  norm_num

/-! ## Helper lemmas about `step` and `run` -/

/-- Unfolding `run` on a cons cell. -/
theorem run_cons (s : SessionState) (ev : SensorEvent) (evs : List SensorEvent) :
    run s (ev :: evs) =
      ((run (step s ev).1 evs).1, (step s ev).2 ++ (run (step s ev).1 evs).2) := rfl

/-- A malformed absolute event produces no sample, whatever field is bad. -/
theorem absoluteSample_eq_none (e : AbsoluteEvent)
    (h : e.absolute = false ∨ e.alpha = none ∨ e.beta = none ∨ e.gamma = none) :
    absoluteSample e = none := by
  rcases e with ⟨fl, al, be, ga⟩
  cases fl <;> rcases al with _ | a <;> rcases be with _ | b <;> rcases ga with _ | g <;>
    simp_all [absoluteSample]

/-- A valid absolute event produces the normalized heading. -/
theorem absoluteSample_valid (a b g : ℝ) :
    absoluteSample ⟨true, some a, some b, some g⟩ = some (absoluteHeading a b g) := rfl

/-- An event on `deviceorientationabsolute` is ignored when
`absoluteListener` is not attached. -/
theorem step_abs_detached (s : SessionState) (e : AbsoluteEvent)
    (h : s.absAttached = false) : step s (.absoluteOrientation e) = (s, []) := by
  simp [step, h]

/-- A malformed absolute event is silently dropped. -/
theorem step_abs_none (s : SessionState) (e : AbsoluteEvent)
    (h : absoluteSample e = none) : step s (.absoluteOrientation e) = (s, []) := by
  by_cases hs : s.absAttached = true <;> simp [step, hs, h]

/-- A valid absolute event, with `absoluteListener` attached, detaches
`webkitListener` and invokes the callback with the normalized heading. -/
theorem step_abs_some (s : SessionState) (e : AbsoluteEvent) (x : ℝ)
    (hs : s.absAttached = true) (h : absoluteSample e = some x) :
    step s (.absoluteOrientation e) =
      ({ s with webAttached := false }, [(Source.absolute, JsVal.num x)]) := by
  simp [step, hs, h]

/-- An event on `deviceorientation` is ignored when `webkitListener` is not
attached. -/
theorem step_web_detached (s : SessionState) (e : WebkitEvent)
    (h : s.webAttached = false) : step s (.deviceOrientation e) = (s, []) := by
  simp [step, h]

/-- A vendor event with no heading or a `NaN` heading is silently dropped. -/
theorem step_web_invalid (s : SessionState) (e : WebkitEvent)
    (h : e.webkitCompassHeading = none ∨
      ∃ v, e.webkitCompassHeading = some v ∧ v.isNaN = true) :
    step s (.deviceOrientation e) = (s, []) := by
  by_cases hs : s.webAttached = true
  · rcases h with h | ⟨v, hv, hnan⟩
    · simp [step, hs, h]
    · simp [step, hs, hv, hnan]
  · simp [step, hs]

/-- A vendor event with a non-`NaN` heading, with `webkitListener` attached,
forwards the raw value and detaches `absoluteListener`. -/
theorem step_web_valid (s : SessionState) (v : JsVal)
    (hs : s.webAttached = true) (hv : v.isNaN = false) :
    step s (.deviceOrientation ⟨some v⟩) =
      ({ s with absAttached := false }, [(Source.webkit, v)]) := by
  simp [step, hs, hv]

/-- The permission promise resolving with anything other than `"granted"`
changes nothing and emits nothing. -/
theorem step_perm_denied (s : SessionState) (r : String) (h : r ≠ "granted") :
    step s (.permissionResult r) = (s, []) := by
  simp [step, h]

/-- The permission promise resolving with `"granted"` runs `addListeners`. -/
theorem step_perm_granted (s : SessionState) :
    step s (.permissionResult "granted") = (⟨true, true⟩, []) := rfl

/-- The cleanup handle detaches both listeners and emits nothing. -/
theorem step_cleanup (s : SessionState) :
    step s .cleanup = (⟨false, false⟩, []) := rfl

/-- `noGrant` on a cons cell. -/
theorem noGrant_cons {ev : SensorEvent} {evs : List SensorEvent}
    (h : noGrant (ev :: evs)) :
    ev ≠ SensorEvent.permissionResult "granted" ∧ noGrant evs := by
  unfold noGrant at *
  simp only [List.mem_cons, not_or] at h
  exact ⟨fun hc => h.1 hc.symm, h.2⟩

/-- A trace with no permission resolutions at all has no grant. -/
theorem permCount_zero_noGrant {evs : List SensorEvent}
    (h : permCount evs = 0) : noGrant evs := by
  intro hmem
  rw [permCount, List.countP_eq_zero] at h
  exact h _ hmem rfl

/-- Once `webkitListener` is detached, and as long as no grant re-attaches
it, it stays detached and every callback comes from `absoluteListener`. -/
theorem run_webDetached (evs : List SensorEvent) : ∀ s : SessionState,
    noGrant evs → s.webAttached = false →
    (run s evs).1.webAttached = false ∧
      ∀ o ∈ (run s evs).2, o.1 = Source.absolute := by
  induction evs with
  | nil => intro s _ hw; exact ⟨hw, by simp [run]⟩
  | cons ev evs ih =>
    intro s hng hw
    obtain ⟨hne, hng'⟩ := noGrant_cons hng
    cases ev with
    | absoluteOrientation e =>
      by_cases hsa : s.absAttached = true
      · rcases habs : absoluteSample e with _ | x
        · rw [run_cons, step_abs_none s e habs]
          simpa using ih s hng' hw
        · rw [run_cons, step_abs_some s e x hsa habs]
          refine ⟨(ih _ hng' rfl).1, ?_⟩
          intro o ho
          rcases List.mem_append.mp ho with ho | ho
          · simp at ho; rw [ho]
          · exact (ih _ hng' rfl).2 o ho
      · rw [run_cons, step_abs_detached s e (by simpa using hsa)]
        simpa using ih s hng' hw
    | deviceOrientation e =>
      rw [run_cons, step_web_detached s e hw]
      simpa using ih s hng' hw
    | permissionResult r =>
      have hr : r ≠ "granted" := fun hc => hne (by rw [hc])
      rw [run_cons, step_perm_denied s r hr]
      simpa using ih s hng' hw
    | cleanup =>
      rw [run_cons, step_cleanup s]
      simpa using ih _ hng' rfl

/-- Once `absoluteListener` is detached, and as long as no grant re-attaches
it, it stays detached and every callback comes from `webkitListener`. -/
theorem run_absDetached (evs : List SensorEvent) : ∀ s : SessionState,
    noGrant evs → s.absAttached = false →
    (run s evs).1.absAttached = false ∧
      ∀ o ∈ (run s evs).2, o.1 = Source.webkit := by
  induction evs with
  | nil => intro s _ ha; exact ⟨ha, by simp [run]⟩
  | cons ev evs ih =>
    intro s hng ha
    obtain ⟨hne, hng'⟩ := noGrant_cons hng
    cases ev with
    | absoluteOrientation e =>
      rw [run_cons, step_abs_detached s e ha]
      simpa using ih s hng' ha
    | deviceOrientation e =>
      by_cases hsw : s.webAttached = true
      · rcases e with ⟨hv⟩
        rcases hv with _ | v
        · rw [run_cons, step_web_invalid s ⟨none⟩ (Or.inl rfl)]
          simpa using ih s hng' ha
        · rcases hnan : v.isNaN with _ | _
          · rw [run_cons, step_web_valid s v hsw hnan]
            refine ⟨(ih _ hng' rfl).1, ?_⟩
            intro o ho
            rcases List.mem_append.mp ho with ho | ho
            · simp at ho; rw [ho]
            · exact (ih _ hng' rfl).2 o ho
          · rw [run_cons, step_web_invalid s ⟨some v⟩ (Or.inr ⟨v, rfl, hnan⟩)]
            simpa using ih s hng' ha
      · rw [run_cons, step_web_detached s ⟨e.webkitCompassHeading⟩ (by simpa using hsw)]
        simpa using ih s hng' ha
    | permissionResult r =>
      have hr : r ≠ "granted" := fun hc => hne (by rw [hc])
      rw [run_cons, step_perm_denied s r hr]
      simpa using ih s hng' ha
    | cleanup =>
      rw [run_cons, step_cleanup s]
      simpa using ih _ hng' rfl

/-- With both listeners detached and no grant in the trace, nothing ever
happens: the state stays fully detached and no callback is invoked. -/
theorem run_bothDetached (evs : List SensorEvent) (hng : noGrant evs) :
    run (⟨false, false⟩ : SessionState) evs = (⟨false, false⟩, []) := by
  obtain ⟨hw, houtw⟩ := run_webDetached evs ⟨false, false⟩ hng rfl
  obtain ⟨ha, houta⟩ := run_absDetached evs ⟨false, false⟩ hng rfl
  have hout : (run (⟨false, false⟩ : SessionState) evs).2 = [] := by
    rcases hcase : (run (⟨false, false⟩ : SessionState) evs).2 with _ | ⟨o, os⟩
    · rfl
    · have h1 := houtw o (by rw [hcase]; exact List.mem_cons_self o os)
      have h2 := houta o (by rw [hcase]; exact List.mem_cons_self o os)
      rw [h1] at h2
      cases h2
  have hstate : (run (⟨false, false⟩ : SessionState) evs).1 = ⟨false, false⟩ := by
    rcases hs : (run (⟨false, false⟩ : SessionState) evs).1 with ⟨a, w⟩
    rw [hs] at ha hw
    simp at ha hw
    rw [ha, hw]
  calc run (⟨false, false⟩ : SessionState) evs
      = ((run (⟨false, false⟩ : SessionState) evs).1,
         (run (⟨false, false⟩ : SessionState) evs).2) := rfl
    _ = (⟨false, false⟩, []) := by rw [hout, hstate]

/-- `permCount` on a cons cell. -/
theorem permCount_cons (ev : SensorEvent) (evs : List SensorEvent) :
    permCount (ev :: evs) =
      permCount evs + if isPermissionEvent ev then 1 else 0 := by
  simp [permCount, List.countP_cons]

/-- Main invariant behind the pick-first-winner policy: in a trace where
the one-shot permission promise resolves at most once (and, if it has not
resolved yet, the listeners are not attached yet), every callback
invocation of the whole run comes from one single source. -/
theorem run_single_source (evs : List SensorEvent) : ∀ s : SessionState,
    permCount evs ≤ 1 → (permCount evs = 1 → s = ⟨false, false⟩) →
    ∃ src, ∀ o ∈ (run s evs).2, o.1 = src := by
  induction evs with
  | nil => intro s _ _; exact ⟨Source.absolute, by simp [run]⟩
  | cons ev evs ih =>
    intro s h1 h2
    rw [permCount_cons] at h1 h2
    cases ev with
    | absoluteOrientation e =>
      simp only [isPermissionEvent, if_neg Bool.false_ne_true, add_zero] at h1 h2
      by_cases hsa : s.absAttached = true
      · rcases habs : absoluteSample e with _ | x
        · rw [run_cons, step_abs_none s e habs]
          simpa using ih s h1 h2
        · have h0 : permCount evs = 0 := by
            rcases Nat.le_one_iff_eq_zero_or_eq_one.mp h1 with h0 | hone
            · exact h0
            · exact absurd (congrArg SessionState.absAttached (h2 hone))
                (by rw [hsa]; simp)
          rw [run_cons, step_abs_some s e x hsa habs]
          refine ⟨Source.absolute, ?_⟩
          intro o ho
          rcases List.mem_append.mp ho with ho | ho
          · simp at ho; rw [ho]
          · exact (run_webDetached evs _ (permCount_zero_noGrant h0) rfl).2 o ho
      · rw [run_cons, step_abs_detached s e (by simpa using hsa)]
        simpa using ih s h1 h2
    | deviceOrientation e =>
      simp only [isPermissionEvent, if_neg Bool.false_ne_true, add_zero] at h1 h2
      by_cases hsw : s.webAttached = true
      · rcases e with ⟨hv⟩
        rcases hv with _ | v
        · rw [run_cons, step_web_invalid s ⟨none⟩ (Or.inl rfl)]
          simpa using ih s h1 h2
        · rcases hnan : v.isNaN with _ | _
          · have h0 : permCount evs = 0 := by
              rcases Nat.le_one_iff_eq_zero_or_eq_one.mp h1 with h0 | hone
              · exact h0
              · exact absurd (congrArg SessionState.webAttached (h2 hone))
                  (by rw [hsw]; simp)
            rw [run_cons, step_web_valid s v hsw hnan]
            refine ⟨Source.webkit, ?_⟩
            intro o ho
            rcases List.mem_append.mp ho with ho | ho
            · simp at ho; rw [ho]
            · exact (run_absDetached evs _ (permCount_zero_noGrant h0) rfl).2 o ho
          · rw [run_cons, step_web_invalid s ⟨some v⟩ (Or.inr ⟨v, rfl, hnan⟩)]
            simpa using ih s h1 h2
      · rw [run_cons, step_web_detached s ⟨e.webkitCompassHeading⟩ (by simpa using hsw)]
        simpa using ih s h1 h2
    | permissionResult r =>
      have hcount : permCount evs + 1 ≤ 1 := by simpa [isPermissionEvent] using h1
      have h0 : permCount evs = 0 := by omega
      have htail := ih (step s (.permissionResult r)).1 (by omega)
        (fun hone => absurd hone (by omega))
      rcases htail with ⟨src, hsrc⟩
      refine ⟨src, ?_⟩
      intro o ho
      rw [run_cons] at ho
      rcases List.mem_append.mp ho with ho | ho
      · have : (step s (SensorEvent.permissionResult r)).2 = [] := by
          by_cases hr : r = "granted"
          · rw [hr, step_perm_granted]
          · rw [step_perm_denied s r hr]
        rw [this] at ho
        cases ho
      · exact hsrc o ho
    | cleanup =>
      simp only [isPermissionEvent, if_neg Bool.false_ne_true, add_zero] at h1 h2
      rw [run_cons, step_cleanup s]
      have := ih ⟨false, false⟩ h1 (fun _ => rfl)
      simpa using this

/-! ## Claim theorems for the adapter and the direction indicator -/

/-- C3: the direction indicator's rotation is the pure function of
`(bearing, heading)` computed by `CompassPopup`: it equals the bearing when
no heading sample exists, and `bearing - heading` once one exists (e.g.
bearing 45, heading 10 gives 35); the value is exactly the difference, with
no normalization applied to it. -/
theorem arrowRotation_pure (b h : ℝ) :
    arrowRotation b none = b ∧
    arrowRotation b (some h) = b - h ∧
    arrowRotation 45 (some 10) = 35 := by
  refine ⟨rfl, rfl, ?_⟩
  show (45 : ℝ) - 10 = 35
  norm_num

/-- C4: a valid absolute-orientation event (absolute flag set, all three
angles non-null) delivers to the callback exactly
`-(alpha + beta*gamma/90)` normalized by subtracting
`floor(heading/360)*360`; the normalized value always lies in `[0, 360)`
(also for negative raw values), and `alpha = beta = gamma = 0` yields
heading `0`. -/
theorem absolute_heading_delivered (w : Bool) (a b c : ℝ) :
    step ⟨true, w⟩ (.absoluteOrientation ⟨true, some a, some b, some c⟩) =
      (⟨true, false⟩, [(Source.absolute, JsVal.num (absoluteHeading a b c))]) ∧
    absoluteHeading a b c =
      -(a + b * c / 90) - (⌊-(a + b * c / 90) / 360⌋ : ℝ) * 360 ∧
    absoluteHeading a b c ∈ Set.Ico (0 : ℝ) 360 ∧
    absoluteHeading 0 0 0 = 0 := by
  refine ⟨?_, rfl, ?_, ?_⟩
  · rw [step_abs_some ⟨true, w⟩ _ _ rfl (absoluteSample_valid a b c)]
  · exact sub_floor_mul_mem_Ico (-(a + b * c / 90)) 360 (by norm_num)
  · show -(0 + (0 : ℝ) * 0 / 90) - (⌊-(0 + (0 : ℝ) * 0 / 90) / 360⌋ : ℝ) * 360 = 0
    norm_num

/-- C5: the pick-first-winner policy.  A valid sample processed by one
source detaches the other source's listener in the same step, and in any
trace of a session (the one-shot permission promise resolving at most
once, and only on a permission-gated platform) every callback invocation
of the whole run originates from one single source: no duplicate or
conflicting updates from the losing source ever occur. -/
theorem compass_single_source (needsPermission : Bool) (evs : List SensorEvent)
    (hwf : wfTrace needsPermission evs) :
    (∀ (w : Bool) (a b c : ℝ),
      (step ⟨true, w⟩
        (.absoluteOrientation ⟨true, some a, some b, some c⟩)).1.webAttached = false) ∧
    (∀ (ab : Bool) (x : ℝ),
      (step ⟨ab, true⟩
        (.deviceOrientation ⟨some (JsVal.num x)⟩)).1.absAttached = false) ∧
    ∃ src, ∀ o ∈ (run (initState needsPermission) evs).2, o.1 = src := by
  refine ⟨?_, ?_, ?_⟩
  · intro w a b c
    rw [step_abs_some ⟨true, w⟩ _ _ rfl (absoluteSample_valid a b c)]
  · intro ab x
    rw [step_web_valid ⟨ab, true⟩ (JsVal.num x) rfl rfl]
  · unfold wfTrace at hwf
    cases needsPermission with
    | false =>
      refine run_single_source evs (initState false) ?_ ?_
      · simp at hwf; omega
      · intro hone
        simp at hwf
        omega
    | true =>
      refine run_single_source evs (initState true) (by simpa using hwf) ?_
      intro _
      rfl

/-- Witness for C5: a concrete well-formed session on a no-permission
platform in which a valid absolute sample wins, a later vendor sample is
ignored, and a second absolute sample still comes from the same source. -/
theorem compass_single_source_witness :
    wfTrace false
      [SensorEvent.absoluteOrientation ⟨true, some 0, some 0, some 0⟩,
       SensorEvent.deviceOrientation ⟨some (JsVal.num 90)⟩,
       SensorEvent.absoluteOrientation ⟨true, some 10, some 0, some 0⟩] ∧
    (∃ src, ∀ o ∈ (run (initState false)
      [SensorEvent.absoluteOrientation ⟨true, some 0, some 0, some 0⟩,
       SensorEvent.deviceOrientation ⟨some (JsVal.num 90)⟩,
       SensorEvent.absoluteOrientation ⟨true, some 10, some 0, some 0⟩]).2,
        o.1 = src) := by
  have hwf : wfTrace false
      [SensorEvent.absoluteOrientation ⟨true, some 0, some 0, some 0⟩,
       SensorEvent.deviceOrientation ⟨some (JsVal.num 90)⟩,
       SensorEvent.absoluteOrientation ⟨true, some 10, some 0, some 0⟩] := by
    simp [wfTrace, permCount, List.countP_cons, isPermissionEvent]
  exact ⟨hwf, (compass_single_source false _ hwf).2.2⟩

/-- C7 counterexample: the vendor listener validates with `isNaN` only, so
a non-finite `Infinity` heading is NOT dropped: with `webkitListener`
attached, a `deviceorientation` event with `webkitCompassHeading` equal to
`Infinity` invokes the callback (with `Infinity`), contradicting the claim
that every non-finite vendor heading is silently dropped. -/
theorem webkit_infinity_not_dropped :
    (step ⟨true, true⟩ (.deviceOrientation ⟨some JsVal.posInf⟩)).2 =
      [(Source.webkit, JsVal.posInf)] ∧
    (step ⟨true, true⟩ (.deviceOrientation ⟨some JsVal.posInf⟩)).2 ≠ [] := by
  have h : step ⟨true, true⟩ (.deviceOrientation ⟨some JsVal.posInf⟩) =
      (⟨false, true⟩, [(Source.webkit, JsVal.posInf)]) :=
    step_web_valid ⟨true, true⟩ JsVal.posInf rfl rfl
  rw [h]
  exact ⟨rfl, by simp⟩

/-- C7 (amended): malformed samples are silently dropped — an absolute
event lacking the `absolute` flag or with a null alpha, beta or gamma
invokes no callback, surfaces no error and leaves the state unchanged, and
likewise a vendor event whose heading is `null`/`undefined` or `NaN`; a
vendor heading is forwarded to the callback after being validated to be
non-null and not `NaN` (so `±Infinity` passes the check and is forwarded
raw). -/
theorem malformed_samples_dropped :
    (∀ (s : SessionState) (e : AbsoluteEvent),
      e.absolute = false ∨ e.alpha = none ∨ e.beta = none ∨ e.gamma = none →
      step s (.absoluteOrientation e) = (s, [])) ∧
    (∀ s : SessionState, step s (.deviceOrientation ⟨none⟩) = (s, [])) ∧
    (∀ s : SessionState, step s (.deviceOrientation ⟨some JsVal.nan⟩) = (s, [])) ∧
    (∀ (ab : Bool) (v : JsVal), v.isNaN = false →
      step ⟨ab, true⟩ (.deviceOrientation ⟨some v⟩) =
        (⟨false, true⟩, [(Source.webkit, v)])) := by
  refine ⟨?_, ?_, ?_, ?_⟩
  · intro s e he
    exact step_abs_none s e (absoluteSample_eq_none e he)
  · intro s
    exact step_web_invalid s ⟨none⟩ (Or.inl rfl)
  · intro s
    exact step_web_invalid s ⟨some JsVal.nan⟩ (Or.inr ⟨JsVal.nan, rfl, rfl⟩)
  · intro ab v hv
    exact step_web_valid ⟨ab, true⟩ v rfl hv

/-- Witness for the amended C7 at concrete inputs: a flagless absolute
event and a null-component event are dropped with both listeners attached,
and a finite vendor heading of 90 is forwarded. -/
theorem malformed_samples_dropped_witness :
    step ⟨true, true⟩ (.absoluteOrientation ⟨false, some 1, some 2, some 3⟩) =
      (⟨true, true⟩, []) ∧
    step ⟨true, true⟩ (.absoluteOrientation ⟨true, none, some 2, some 3⟩) =
      (⟨true, true⟩, []) ∧
    step ⟨true, true⟩ (.deviceOrientation ⟨some (JsVal.num 90)⟩) =
      (⟨false, true⟩, [(Source.webkit, JsVal.num 90)]) :=
  ⟨malformed_samples_dropped.1 ⟨true, true⟩ _ (Or.inl rfl),
   malformed_samples_dropped.1 ⟨true, true⟩ _ (Or.inr (Or.inl rfl)),
   malformed_samples_dropped.2.2.2 true (JsVal.num 90) rfl⟩

/-- C8: the cleanup handle returned by `startCompassListener` is
idempotent and total (it never throws: removing an unattached listener is
a no-op): invoking it any positive number of times detaches whichever
listeners are currently attached and leaves no active listeners, and
within a session trace a cleanup event emits no callback. -/
theorem cleanup_idempotent (s : SessionState) (n : ℕ) :
    cleanupFn^[n + 1] s = ⟨false, false⟩ ∧
    cleanupFn (cleanupFn s) = cleanupFn s ∧
    (cleanupFn s).absAttached = false ∧
    (cleanupFn s).webAttached = false ∧
    step s SensorEvent.cleanup = (cleanupFn s, []) := by
  refine ⟨?_, rfl, rfl, rfl, rfl⟩
  rw [Function.iterate_succ_apply']
  rfl

/-- C6 counterexample: on a permission-gated platform
(`DeviceOrientationEvent.requestPermission` is a function) a denied grant
is NOT treated as `Unsupported`.  The denial branch only issues a console
warning; `startCompassListener` has already returned a non-null cleanup
handle, so `CompassPopup` keeps `isSupported = true` — not the terminal
state entered when no orientation sensor is available (`isSupported =
false`). -/
theorem permission_denied_not_unsupported :
    (popupState true true [SensorEvent.permissionResult "denied"]).1 = true ∧
    (popupState true true [SensorEvent.permissionResult "denied"]).1 ≠ false := by
  constructor
  · simp [popupState]
  · simp [popupState]

/-- C6 (amended): on platforms requiring the explicit asynchronous
permission grant the adapter does request it before attaching any
listeners — right after `startCompassListener` returns, no listener is
attached, and a non-`"granted"` resolution attaches nothing and emits
nothing.  If the grant is denied (no `"granted"` resolution ever occurs)
the session never attaches a listener and never invokes the callback; but
it is NOT treated as `Unsupported`: the popup stays in the supported
"waiting" state with the heading still null. -/
theorem permission_gate (evs : List SensorEvent) (hng : noGrant evs) :
    initState true = ⟨false, false⟩ ∧
    (∀ (s : SessionState) (r : String), r ≠ "granted" →
      step s (SensorEvent.permissionResult r) = (s, [])) ∧
    run (initState true) evs = (⟨false, false⟩, []) ∧
    popupState true true evs = (true, none) := by
  refine ⟨rfl, step_perm_denied, ?_, ?_⟩
  · exact run_bothDetached evs hng
  · unfold popupState
    rw [if_pos rfl]
    have h : run (initState true) evs = (⟨false, false⟩, []) :=
      run_bothDetached evs hng
    rw [h]
    rfl

/-- Witness for the amended C6: in the concrete session whose only event
is the permission promise resolving with `"denied"`, nothing is attached,
the callback never fires, and the popup ends supported with a null
heading. -/
theorem permission_gate_witness :
    noGrant [SensorEvent.permissionResult "denied"] ∧
    run (initState true) [SensorEvent.permissionResult "denied"] =
      (⟨false, false⟩, []) ∧
    popupState true true [SensorEvent.permissionResult "denied"] =
      (true, none) := by
  have hng : noGrant [SensorEvent.permissionResult "denied"] := by
    simp [noGrant]
  exact ⟨hng, (permission_gate _ hng).2.2.1, (permission_gate _ hng).2.2.2⟩

/-- C10: `startCompassListener` returns `null` exactly when the
`DeviceOrientationEvent` API is absent; in every other case — including
when the permission request later resolves to a denial — it returns the
non-null cleanup handle.  Since `CompassPopup` enters the `Unsupported`
state only on the null return, a permission denial leaves the indicator in
the supported/waiting state with the heading still null. -/
theorem start_listener_null_iff_api_absent (api : Bool)
    (evs : List SensorEvent) (hng : noGrant evs) :
    (startCompassListener api = none ↔ api = false) ∧
    startCompassListener true = some cleanupFn ∧
    (popupState api true evs).1 = api ∧
    popupState true true evs = (true, none) := by
  refine ⟨?_, rfl, ?_, ?_⟩
  · cases api with
    | false => simp [startCompassListener]
    | true => simp [startCompassListener]
  · cases api with
    | false => simp [popupState]
    | true => simp [popupState]
  · unfold popupState
    rw [if_pos rfl]
    have h : run (initState true) evs = (⟨false, false⟩, []) :=
      run_bothDetached evs hng
    rw [h]
    rfl

/-- Witness for C10: at the concrete inputs `api = false` and the
one-event denial trace, `startCompassListener` returns `null` only for the
missing API, and the denial leaves the popup supported with a null
heading. -/
theorem start_listener_null_iff_api_absent_witness :
    startCompassListener false = none ∧
    startCompassListener true = some cleanupFn ∧
    popupState true true [SensorEvent.permissionResult "denied"] =
      (true, none) := by
  have hng : noGrant [SensorEvent.permissionResult "denied"] := by
    simp [noGrant]
  have h := start_listener_null_iff_api_absent false
    [SensorEvent.permissionResult "denied"] hng
  have h' := start_listener_null_iff_api_absent true
    [SensorEvent.permissionResult "denied"] hng
  exact ⟨h.1.mpr rfl, h'.2.1, h'.2.2.2⟩
